import Mathlib

/-!
Verification development for the NDVI service in `src/main.py`
(FastAPI + STAC + rasterio pipeline).

The embedding below translates the pipeline of `src/main.py` into Lean:

* `Affine` models `rasterio.transform.Affine` (row-major 6 parameters, acting
  on `(x, y)` column vectors, with `mul` the 3x3 matrix composition).
* `Window`/`fromBounds` model `rasterio.windows.Window` and
  `rasterio.windows.from_bounds` (the four-corner min/max formulation).
* `MArr` models a 2-D `numpy.ma.MaskedArray` (underlying data plus mask);
  the binary operations follow `numpy/ma/core.py`: result data is computed
  on the raw `.data` buffers, masks are OR-ed, and where the result is
  masked the data is reverted to the first operand's data
  (the "put back da" step of `_MaskedBinaryOperation.__call__` and
  `_DomainedBinaryOperation.__call__`); `==` comparison fills masked
  entries of the underlying boolean data with the mask comparison
  (`False` against an unmasked scalar).  `numpy.where` (the plain
  function, not `numpy.ma.where`) operates on the underlying data and
  returns a plain array with no mask.
* Rational numbers stand in for IEEE doubles; an `Option ℚ` sample is
  either a finite value (`some q`) or `NaN` (`none`).
* External collaborators (STAC catalog, GDAL raster I/O, pyproj
  transformer) are modelled as explicit parameters, faithful to the
  interfaces the source consumes.
-/

namespace NdviService

/-- Geospatial affine transform, as in `rasterio.transform.Affine`:
`x = a * col + b * row + c`, `y = d * col + e * row + f`. -/
structure Affine where
  a : ℚ
  b : ℚ
  c : ℚ
  d : ℚ
  e : ℚ
  f : ℚ
deriving DecidableEq

/-- Apply an affine transform to a pixel-space point `(col, row)`,
yielding CRS coordinates `(x, y)` (the `Affine.__mul__` action on a
coordinate pair in the `affine` package). -/
def Affine.apply (t : Affine) (p : ℚ × ℚ) : ℚ × ℚ :=
  (t.a * p.1 + t.b * p.2 + t.c, t.d * p.1 + t.e * p.2 + t.f)

/-- Composition of affine transforms (`A * B` in the `affine` package:
3x3 matrix product, so `(A * B) p = A (B p)`). -/
def Affine.mul (t u : Affine) : Affine where
  a := t.a * u.a + t.b * u.d
  b := t.a * u.b + t.b * u.e
  c := t.a * u.c + t.b * u.f + t.c
  d := t.d * u.a + t.e * u.d
  e := t.d * u.b + t.e * u.e
  f := t.d * u.c + t.e * u.f + t.f

/-- Pure pixel-space translation, `Affine.translation(xoff, yoff)`. -/
def Affine.translation (xoff yoff : ℚ) : Affine :=
  ⟨1, 0, xoff, 0, 1, yoff⟩

/-- Determinant of the linear part of an affine transform. -/
def Affine.det (t : Affine) : ℚ := t.a * t.e - t.b * t.d

/-- Inverse affine application (`~transform * (x, y)` in rasterio),
recovering the fractional `(col, row)` of a CRS point. -/
def Affine.invApply (t : Affine) (p : ℚ × ℚ) : ℚ × ℚ :=
  ((t.e * (p.1 - t.c) - t.b * (p.2 - t.f)) / t.det,
   (-t.d * (p.1 - t.c) + t.a * (p.2 - t.f)) / t.det)

/-- A raster window (`rasterio.windows.Window`): fractional column/row
offsets and extents, as produced by `from_bounds`. -/
structure Window where
  col_off : ℚ
  row_off : ℚ
  width : ℚ
  height : ℚ
deriving DecidableEq

/-- Minimum of four rationals. -/
def min4 (p q r s : ℚ) : ℚ := min (min p q) (min r s)

/-- Maximum of four rationals. -/
def max4 (p q r s : ℚ) : ℚ := max (max p q) (max r s)

/-- Model of `rasterio.windows.from_bounds(left, bottom, right, top, transform)`:
runs the inverse transform on the four corners of the bounds box, then
takes min/max of the resulting fractional rows and columns. -/
def fromBounds (left bottom right top : ℚ) (t : Affine) : Window :=
  let p1 := t.invApply (left, top)
  let p2 := t.invApply (right, top)
  let p3 := t.invApply (right, bottom)
  let p4 := t.invApply (left, bottom)
  let colStart := min4 p1.1 p2.1 p3.1 p4.1
  let colStop := max4 p1.1 p2.1 p3.1 p4.1
  let rowStart := min4 p1.2 p2.2 p3.2 p4.2
  let rowStop := max4 p1.2 p2.2 p3.2 p4.2
  { col_off := colStart, row_off := rowStart,
    width := max (colStop - colStart) 0,
    height := max (rowStop - rowStart) 0 }

/-- Line 134 of `src/main.py`:
`transform = src_transform * Affine.translation(col_off, row_off)`. -/
def outputTransform (src : Affine) (w : Window) : Affine :=
  src.mul (Affine.translation w.col_off w.row_off)

/-- C2: the output transform attached to a windowed grid is the source
transform composed with the pixel-space translation by
`(col_off, row_off)`: applied to any pixel `(px, py)` it equals the
source transform applied to `(px + col_off, py + row_off)`; in
particular at pixel `(0,0)` it equals the source transform applied to
`(col_off, row_off)`, exactly. -/
theorem window_transform_translation (src : Affine) (w : Window) :
    (∀ p : ℚ × ℚ,
      (outputTransform src w).apply p = src.apply (p.1 + w.col_off, p.2 + w.row_off))
    ∧ (outputTransform src w).apply (0, 0) = src.apply (w.col_off, w.row_off) := by
  constructor
  · intro p
    simp only [outputTransform, Affine.apply, Affine.mul, Affine.translation]
    rw [Prod.mk.injEq]
    exact ⟨by ring, by ring⟩
  · simp only [outputTransform, Affine.apply, Affine.mul, Affine.translation]
    rw [Prod.mk.injEq]
    exact ⟨by ring, by ring⟩

/-- A floating-point sample: `some q` is a finite value, `none` stands for
a non-finite value (NaN, or the overflow of a zero division — in the
pipeline below non-finite values only ever arise as NaN or inside
positions that are immediately masked and reverted). -/
abbrev Sample := Option ℚ

/-- Scalar division by the Sentinel-2 reflectance factor 10000. -/
def oDiv10000 (x : Sample) : Sample := x.map (fun q => q / 10000)

/-- NaN-propagating addition on raw float data. -/
def oAdd : Sample → Sample → Sample
  | some x, some y => some (x + y)
  | _, _ => none

/-- NaN-propagating subtraction on raw float data. -/
def oSub : Sample → Sample → Sample
  | some x, some y => some (x - y)
  | _, _ => none

/-- Raw float division; a zero divisor or a NaN operand produces a
non-finite result (collapsed to `none`). -/
def oDivRaw : Sample → Sample → Sample
  | some x, some y => if y = 0 then none else some (x / y)
  | _, _ => none

/-- A 2-D `numpy.ma.MaskedArray`: raw data buffer plus validity mask
(`mask i j = true` means the sample is masked / no-data). -/
structure MArr where
  rows : Nat
  cols : Nat
  data : Nat → Nat → Sample
  mask : Nat → Nat → Bool

/-- A plain 2-D `numpy.ndarray` (no mask). -/
structure Arr where
  rows : Nat
  cols : Nat
  data : Nat → Nat → Sample

/-- A 2-D boolean masked array (result of comparing a masked array with
a scalar). -/
structure MBoolArr where
  rows : Nat
  cols : Nat
  data : Nat → Nat → Bool
  mask : Nat → Nat → Bool

/-- Numpy broadcasting of one dimension: equal dims pass through, a dim
of 1 stretches to the other, anything else is incompatible. -/
def broadcastDim (r1 r2 : Nat) : Option Nat :=
  if r1 = r2 then some r1 else if r1 = 1 then some r2 else if r2 = 1 then some r1 else none

/-- Index into an operand of dimension `srcDim` when broadcasting. -/
def bIdx (srcDim i : Nat) : Nat := if srcDim = 1 then 0 else i

/-- Whether two masked arrays have broadcast-compatible shapes. -/
def shapesCompatible (a b : MArr) : Bool :=
  (broadcastDim a.rows b.rows).isSome && (broadcastDim a.cols b.cols).isSome

/-- Result mask of a masked binary operation (`numpy/ma/core.py`):
union of the operand masks; a domained operation (division) also masks
zero divisors and non-finite results. -/
def binMask (domained : Bool) (f : Sample → Sample → Sample) (a b : MArr) (i j : Nat) :
    Bool :=
  let da := a.data (bIdx a.rows i) (bIdx a.cols j)
  let db := b.data (bIdx b.rows i) (bIdx b.cols j)
  a.mask (bIdx a.rows i) (bIdx a.cols j) || b.mask (bIdx b.rows i) (bIdx b.cols j) ||
    (domained && (decide (db = some 0) || decide (f da db = none)))

/-- Result data of a masked binary operation: computed on the raw data
buffers, then reverted to the first operand's data where the result is
masked (the "put back da" step of `_MaskedBinaryOperation.__call__`
and `_DomainedBinaryOperation.__call__` in `numpy/ma/core.py`). -/
def binData (domained : Bool) (f : Sample → Sample → Sample) (a b : MArr) (i j : Nat) :
    Sample :=
  let da := a.data (bIdx a.rows i) (bIdx a.cols j)
  let db := b.data (bIdx b.rows i) (bIdx b.cols j)
  if binMask domained f a b i j then da else f da db

/-- A masked binary operation with numpy broadcasting; incompatible
shapes raise `ValueError` (modelled as an `Except.error`). -/
def maBinop (domained : Bool) (f : Sample → Sample → Sample) (a b : MArr) :
    Except String MArr :=
  match broadcastDim a.rows b.rows, broadcastDim a.cols b.cols with
  | some nr, some nc =>
      .ok { rows := nr, cols := nc,
            data := binData domained f a b,
            mask := binMask domained f a b }
  | _, _ => .error "ValueError: operands could not be broadcast together"

/-- Masked array addition (`b8 + b4`). -/
def maAdd : MArr → MArr → Except String MArr := maBinop false oAdd

/-- Masked array subtraction (`b8 - b4`). -/
def maSub : MArr → MArr → Except String MArr := maBinop false oSub

/-- Masked array division (`(b8 - b4) / denom`), a domained operation. -/
def maDivide : MArr → MArr → Except String MArr := maBinop true oDivRaw

/-- In-place scalar division `x /= 10000.0` on a masked array:
`MaskedArray.__itruediv__` divides the raw data by 1 at masked
positions, so masked samples keep their raw data. -/
def iDiv10000 (a : MArr) : MArr :=
  { a with data := fun i j => if a.mask i j then a.data i j else oDiv10000 (a.data i j) }

/-- Comparison `denom == 0` of a masked array against an unmasked
scalar: the underlying boolean data is the raw comparison, adjusted to
`False` at masked positions (`MaskedArray._comparison` fills masked
elements with the mask comparison, and the scalar is unmasked); the
mask is carried over. -/
def maEqZero (a : MArr) : MBoolArr :=
  { rows := a.rows, cols := a.cols,
    data := fun i j => if a.mask i j then false else decide (a.data i j = some 0),
    mask := a.mask }

/-- Model of `np.where(cond, np.nan, y)` — the plain `numpy.where`, not
`numpy.ma.where`: it consumes the underlying data buffers of its
arguments and returns a plain array carrying no mask. -/
def npWhereNanElse (cond : MBoolArr) (y : MArr) : Except String Arr :=
  match broadcastDim cond.rows y.rows, broadcastDim cond.cols y.cols with
  | some nr, some nc =>
      .ok { rows := nr, cols := nc,
            data := fun i j =>
              if cond.data (bIdx cond.rows i) (bIdx cond.cols j) then none
              else y.data (bIdx y.rows i) (bIdx y.cols j) }
  | _, _ => .error "ValueError: operands could not be broadcast together"

/-- Lines 124–130 of `src/main.py`: scale both bands by 10000, form
`denom = b8 + b4` and `ndvi = np.where(denom == 0, np.nan, (b8 - b4) / denom)`
(the trailing `astype("float32")` is the identity in this model). -/
def computeIndex (b4 b8 : MArr) : Except String Arr := do
  let b4s := iDiv10000 b4
  let b8s := iDiv10000 b8
  let denom ← maAdd b8s b4s
  let num ← maSub b8s b4s
  let ratio ← maDivide num denom
  npWhereNanElse (maEqZero denom) ratio

/-- Observe one sample of a fallible array computation (`none` when the
computation raised). -/
def resultData (r : Except String Arr) (i j : Nat) : Option Sample :=
  match r with
  | .ok a => some (a.data i j)
  | .error _ => none

/-- Whether a fallible array computation succeeded. -/
def exceptOk (r : Except String Arr) : Bool :=
  match r with
  | .ok _ => true
  | .error _ => false

/-- The creation profile `_save_geotiff` passes to rasterio
(lines 142–152 of `src/main.py`). -/
structure GeoTiffProfile where
  driver : String
  height : Nat
  width : Nat
  count : Nat
  dtype : String
  crs : String
  transform : Affine
  compress : String
  nodata : Sample

/-- An encoded single-band GeoTIFF held in memory: its creation profile
and the written band.  The GDAL GTiff codec (an external collaborator)
is modelled as a faithful container: decoding returns what was
written. -/
structure GeoTiff where
  profile : GeoTiffProfile
  band1 : Nat → Nat → Sample

/-- Model of `_save_geotiff` (lines 139–160 of `src/main.py`): single-band
float32 GeoTIFF with deflate compression, the supplied transform and
CRS, and `nodata = np.nan` (the NaN sentinel, `none` here). -/
def saveGeotiff (ndvi : Arr) (transform : Affine) (crsWkt : String) : GeoTiff :=
  { profile :=
      { driver := "GTiff", height := ndvi.rows, width := ndvi.cols, count := 1,
        dtype := "float32", crs := crsWkt, transform := transform,
        compress := "deflate", nodata := none },
    band1 := ndvi.data }

/-- Decode band 1 of an encoded GeoTIFF. -/
def GeoTiff.decodeBand1 (g : GeoTiff) : Arr :=
  { rows := g.profile.height, cols := g.profile.width, data := g.band1 }

/-- Decode the affine transform of an encoded GeoTIFF. -/
def GeoTiff.decodeTransform (g : GeoTiff) : Affine := g.profile.transform

/-- Decode the CRS of an encoded GeoTIFF. -/
def GeoTiff.decodeCrs (g : GeoTiff) : String := g.profile.crs

theorem iDiv10000_rows (a : MArr) : (iDiv10000 a).rows = a.rows := rfl

theorem iDiv10000_cols (a : MArr) : (iDiv10000 a).cols = a.cols := rfl

theorem iDiv10000_mask (a : MArr) : (iDiv10000 a).mask = a.mask := rfl

theorem broadcastDim_self (r : Nat) : broadcastDim r r = some r := by
  simp [broadcastDim]

theorem broadcastDim_comm (r1 r2 : Nat) : broadcastDim r1 r2 = broadcastDim r2 r1 := by
  unfold broadcastDim
  split_ifs <;> simp_all

theorem bIdx_lt {r i : Nat} (h : i < r) : bIdx r i = i := by
  unfold bIdx
  split
  · omega
  · rfl

theorem ok_bind {A B : Type} (a : A) (f : A -> Except String B) :
    (Except.ok a >>= f) = f a := rfl

theorem error_bind {A B : Type} (e : String) (f : A -> Except String B) :
    ((Except.error e : Except String A) >>= f) = Except.error e := rfl

/-- C8: decoding the GeoTIFF produced by `_save_geotiff` reproduces the
same grid (here: exactly), the same affine transform and the same CRS,
with the no-data sentinel (NaN) declared in the profile. -/
theorem geotiff_roundtrip (a : Arr) (t : Affine) (s : String) :
    (saveGeotiff a t s).decodeBand1 = a ∧
    (saveGeotiff a t s).decodeTransform = t ∧
    (saveGeotiff a t s).decodeCrs = s ∧
    (saveGeotiff a t s).profile.nodata = none :=
  ⟨rfl, rfl, rfl, rfl⟩

/-- A 2-row, 1-column unmasked red band window (raw value 1). -/
def mismB4 : MArr := ⟨2, 1, fun _ _ => some 1, fun _ _ => false⟩

/-- A 2-row, 2-column unmasked near-infrared band window (raw value 3). -/
def mismB8 : MArr := ⟨2, 2, fun _ _ => some 3, fun _ _ => false⟩

/-- C7 counterexample: the band windows `mismB4` (2x1) and `mismB8`
(2x2) have mismatched grid shapes, yet the index computation succeeds
and silently broadcasts, producing sample 1/2 at position (1,1) —
no data-integrity error is raised. -/
theorem shape_mismatch_silently_broadcast :
    mismB4.cols ≠ mismB8.cols ∧
    exceptOk (computeIndex mismB4 mismB8) = true ∧
    resultData (computeIndex mismB4 mismB8) 1 1 = some (some (1/2)) := by
  refine ⟨by decide, by decide, ?_⟩
  norm_num [computeIndex, maAdd, maSub, maDivide, maBinop, iDiv10000, oDiv10000,
    binData, binMask, bIdx, maEqZero, npWhereNanElse, resultData, oAdd, oSub,
    oDivRaw, broadcastDim, mismB4, mismB8, ok_bind, error_bind]
  simp

/-- C7 amended: the pipeline performs no explicit shape check — the
index computation succeeds exactly when the two windows are
numpy-broadcast-compatible (each dimension equal or 1); incompatible
shapes fail with a generic broadcasting `ValueError`, and compatible
mismatched shapes are silently broadcast. -/
theorem computeIndex_ok_iff_broadcastable (b4 b8 : MArr) :
    exceptOk (computeIndex b4 b8) = shapesCompatible b4 b8 := by
  unfold computeIndex
  rcases h1 : broadcastDim b8.rows b4.rows with _ | nr <;>
    rcases h2 : broadcastDim b8.cols b4.cols with _ | nc
  all_goals
    simp [maAdd, maSub, maDivide, maBinop, iDiv10000_rows, iDiv10000_cols, h1, h2,
      broadcastDim_self, npWhereNanElse, maEqZero, exceptOk, shapesCompatible,
      broadcastDim_comm b4.rows b8.rows, broadcastDim_comm b4.cols b8.cols,
      ok_bind, error_bind]

/-- A 1x1 fully-masked red band window whose raw (fill) data value is 1. -/
def cexB4 : MArr := ⟨1, 1, fun _ _ => some 1, fun _ _ => true⟩

/-- A 1x1 fully-masked near-infrared band window whose raw (fill) data
value is 3. -/
def cexB8 : MArr := ⟨1, 1, fun _ _ => some 3, fun _ _ => true⟩

/-- C1 counterexample: both input samples are masked (no-data), yet the
output sample of the index computation is the finite value 3 (the raw
B08 data put back by the masked operations and then leaked by the plain
`np.where`, which drops the mask).  The value 3 is not the NaN no-data
sentinel (`none`), so the encoded raster — whose declared nodata is NaN —
treats it as valid data: a masked input sample did not propagate to a
no-data output sample. -/
theorem masked_input_sample_leaks :
    cexB4.mask 0 0 = true ∧ cexB8.mask 0 0 = true ∧
    resultData (computeIndex cexB4 cexB8) 0 0 = some (some 3) ∧
    some (3 : ℚ) ≠ (none : Sample) := by
  refine ⟨rfl, rfl, ?_, by simp⟩
  norm_num [computeIndex, maAdd, maSub, maDivide, maBinop, iDiv10000, oDiv10000,
    binData, binMask, bIdx, maEqZero, npWhereNanElse, resultData, oAdd, oSub,
    oDivRaw, broadcastDim, cexB4, cexB8, ok_bind, error_bind]

/-- C1 amended: for equal-shaped windows, (1) at an unmasked sample
whose scaled denominator is exactly zero the output sample is the NaN
sentinel, which `_save_geotiff` declares as nodata — so no unchecked NaN
reaches the encoded raster undeclared; but (2) a masked input sample
does NOT propagate to a no-data output: `np.where` drops the mask and
the output sample there is the (possibly scaled) underlying B08 data
value; and (3) the encoder declares NaN (`none`) as the nodata
sentinel. -/
theorem ndvi_nodata_amended (b4 b8 : MArr)
    (hr : b8.rows = b4.rows) (hc : b8.cols = b4.cols)
    (i j : Nat) (hi : i < b4.rows) (hj : j < b4.cols) :
    (∀ x y : ℚ, b4.mask i j = false → b8.mask i j = false →
      b4.data i j = some x → b8.data i j = some y → y + x = 0 →
      resultData (computeIndex b4 b8) i j = some none)
    ∧ ((b4.mask i j = true ∨ b8.mask i j = true) →
      resultData (computeIndex b4 b8) i j = some ((iDiv10000 b8).data i j))
    ∧ (∀ (a : Arr) (t : Affine) (s : String),
      (saveGeotiff a t s).profile.nodata = none) := by
  have h1 : broadcastDim b8.rows b4.rows = some b4.rows := by
    rw [hr, broadcastDim_self]
  have h2 : broadcastDim b8.cols b4.cols = some b4.cols := by
    rw [hc, broadcastDim_self]
  refine ⟨?_, ?_, fun a t s => rfl⟩
  · intro x y hm4 hm8 hd4 hd8 hxy
    have hsum : y / 10000 + x / 10000 = 0 := by
      rw [div_add_div_same, hxy, zero_div]
    simp [computeIndex, maAdd, maSub, maDivide, maBinop, iDiv10000_rows,
      iDiv10000_cols, h1, h2, broadcastDim_self, npWhereNanElse, maEqZero,
      resultData, ok_bind, bIdx_lt hi, bIdx_lt hj, binData, binMask, iDiv10000,
      oDiv10000, oAdd, oSub, oDivRaw, hr, hc, hm4, hm8, hd4, hd8, hsum]
  · intro hm
    rcases hm with hm | hm <;>
      simp [computeIndex, maAdd, maSub, maDivide, maBinop, iDiv10000_rows,
        iDiv10000_cols, h1, h2, broadcastDim_self, npWhereNanElse, maEqZero,
        resultData, ok_bind, bIdx_lt hi, bIdx_lt hj, binData, binMask, iDiv10000,
        oDiv10000, oAdd, oSub, oDivRaw, hr, hc, hm]

/-- Unmasked 1x1 red band window with raw value 2. -/
def zeroW4 : MArr := ⟨1, 1, fun _ _ => some 2, fun _ _ => false⟩

/-- Unmasked 1x1 near-infrared band window with raw value -2, so the
NDVI denominator is exactly zero. -/
def zeroW8 : MArr := ⟨1, 1, fun _ _ => some (-2), fun _ _ => false⟩

/-- Witness for the amended C1 theorem at a concrete zero-denominator
input: the output sample is the NaN no-data sentinel. -/
theorem ndvi_nodata_amended_witness :
    resultData (computeIndex zeroW4 zeroW8) 0 0 = some none :=
  (ndvi_nodata_amended zeroW4 zeroW8 rfl rfl 0 0 (by decide) (by decide)).1 2 (-2)
    rfl rfl rfl rfl (by norm_num)

/-- A STAC item as consumed by the pipeline: an identifier, the B04/B08
asset hrefs, and the `eo:cloud_cover` property (absent on some items). -/
structure Item where
  itemId : String
  hrefB04 : String
  hrefB08 : String
  cloudCover : Option ℚ
deriving DecidableEq

/-- The external STAC catalog service: for a bbox and a datetime range it
yields the intersecting items in catalog order (the spatial/temporal
filtering is the collaborator's contract, out of scope here). -/
structure Catalog where
  itemsFor : (ℚ × ℚ × ℚ × ℚ) → String → List Item

/-- Model of the catalog search with an eo:cloud_cover lt-limit query: the
catalog honours the query, returning only items whose cloud-cover
property exists and is strictly below the limit. -/
def searchItems (c : Catalog) (bbox : ℚ × ℚ × ℚ × ℚ) (dt : String) (limitCloud : ℚ) :
    List Item :=
  (c.itemsFor bbox dt).filter (fun it =>
    match it.cloudCover with
    | some cc => decide (cc < limitCloud)
    | none => false)

/-- Sort key of line 73: `it.properties.get("eo:cloud_cover", 1000)`. -/
def cloudKey (it : Item) : ℚ := it.cloudCover.getD 1000

/-- Stable insertion of an element into a key-sorted list (the inserted
element goes before later elements with an equal key). -/
def insertByKey (x : Item) : List Item → List Item
  | [] => [x]
  | y :: ys => if cloudKey y < cloudKey x then y :: insertByKey x ys else x :: y :: ys

/-- Stable sort by cloud-cover key.  Python `list.sort(key=...)` is a
stable sort; any stable sort by the same key yields the same list, so
stable insertion sort is a faithful (and kernel-computable) model. -/
def sortByCloud : List Item → List Item
  | [] => []
  | x :: xs => insertByKey x (sortByCloud xs)

/-- The inner `_pick(limit_cloud)` of `_search_best_item` (lines 62–74):
run the filtered search, return `None` when it is empty, otherwise the
item with the lowest cloud cover (ties kept in catalog order). -/
def pick (c : Catalog) (bbox : ℚ × ℚ × ℚ × ℚ) (dt : String) (limitCloud : ℚ) :
    Option Item :=
  let items := searchItems c bbox dt limitCloud
  if items.isEmpty then none
  else (sortByCloud items).head?

/-- Model of `_search_best_item` (lines 49–79 of `src/main.py`): primary query at
`cloud_first` (the endpoints use the default 20), relaxed to 60 only
when the primary query returns nothing. -/
def searchBestItem (c : Catalog) (bbox : ℚ × ℚ × ℚ × ℚ) (startD endD : String)
    (cloudFirst : ℚ) : Option Item :=
  let dt := startD ++ "/" ++ endD
  match pick c bbox dt cloudFirst with
  | some it => some it
  | none => pick c bbox dt 60

theorem mem_insertByKey {x a : Item} {l : List Item} :
    a ∈ insertByKey x l ↔ a = x ∨ a ∈ l := by
  induction l with
  | nil => simp [insertByKey]
  | cons y ys ih =>
      unfold insertByKey
      split
      · simp [ih]
        tauto
      · simp

theorem mem_sortByCloud {a : Item} {l : List Item} :
    a ∈ sortByCloud l ↔ a ∈ l := by
  induction l with
  | nil => simp [sortByCloud]
  | cons y ys ih => simp [sortByCloud, mem_insertByKey, ih]

theorem pick_mem {c : Catalog} {bbox : ℚ × ℚ × ℚ × ℚ} {dt : String} {lim : ℚ}
    {it : Item} (h : pick c bbox dt lim = some it) :
    it ∈ searchItems c bbox dt lim := by
  simp only [pick] at h
  split at h
  · exact absurd h (by simp)
  · have : it ∈ sortByCloud (searchItems c bbox dt lim) := by
      cases hh : sortByCloud (searchItems c bbox dt lim) with
      | nil => rw [hh] at h; simp [List.head?] at h
      | cons b bs => rw [hh] at h; simp [List.head?] at h; simp [h]
    exact mem_sortByCloud.mp this

theorem pick_cloud_lt {c : Catalog} {bbox : ℚ × ℚ × ℚ × ℚ} {dt : String} {lim : ℚ}
    {it : Item} (h : pick c bbox dt lim = some it) :
    ∃ cc, it.cloudCover = some cc ∧ cc < lim := by
  have hmem := pick_mem h
  unfold searchItems at hmem
  rw [List.mem_filter] at hmem
  rcases hmem with ⟨-, hprop⟩
  cases hcc : it.cloudCover with
  | none => rw [hcc] at hprop; simp at hprop
  | some cc =>
      rw [hcc] at hprop
      simp at hprop
      exact ⟨cc, rfl, hprop⟩

/-- C5: for a valid bbox, `_search_best_item` returns either no scene or
a scene whose cloud cover is strictly below the threshold that was in
effect: the primary threshold `T` when the primary query produced it,
otherwise the relaxed threshold 60; a scene at or above the effective
threshold is never returned. -/
theorem search_best_cloud_below_threshold (c : Catalog)
    (west south east north : ℚ) (startD endD : String) (T : ℚ)
    (hwe : west < east) (hsn : south < north) (it : Item)
    (h : searchBestItem c (west, south, east, north) startD endD T = some it) :
    ∃ cc, it.cloudCover = some cc ∧
      ((pick c (west, south, east, north) (startD ++ "/" ++ endD) T = some it ∧ cc < T)
       ∨ (pick c (west, south, east, north) (startD ++ "/" ++ endD) T = none ∧ cc < 60)) := by
  simp only [searchBestItem] at h
  cases hp : pick c (west, south, east, north) (startD ++ "/" ++ endD) T with
  | some it2 =>
      rw [hp] at h
      simp at h
      subst h
      rcases pick_cloud_lt hp with ⟨cc, hcc, hlt⟩
      exact ⟨cc, hcc, Or.inl ⟨rfl, hlt⟩⟩
  | none =>
      rw [hp] at h
      simp at h
      rcases pick_cloud_lt h with ⟨cc, hcc, hlt⟩
      exact ⟨cc, hcc, Or.inr ⟨rfl, hlt⟩⟩

/-- C6: the relaxed 60% tier is consulted only when the primary query is
empty — a primary-tier scene, when it exists, is always the one
returned, and on an empty primary tier the result is exactly the
relaxed-tier pick. -/
theorem relaxed_tier_only_on_empty_primary (c : Catalog) (bbox : ℚ × ℚ × ℚ × ℚ)
    (startD endD : String) (T : ℚ) :
    (∀ it, pick c bbox (startD ++ "/" ++ endD) T = some it →
      searchBestItem c bbox startD endD T = some it)
    ∧ (pick c bbox (startD ++ "/" ++ endD) T = none →
      searchBestItem c bbox startD endD T = pick c bbox (startD ++ "/" ++ endD) 60) := by
  constructor
  · intro it h
    simp only [searchBestItem]
    simp [h]
  · intro h
    simp only [searchBestItem]
    simp [h]

/-- A concrete catalog with two scenes: cloud covers 50 and 10. -/
def witItemA : Item := ⟨"S2A_begin", "https-b04-a", "https-b08-a", some 50⟩

/-- The less cloudy of the two concrete scenes (cloud cover 10). -/
def witItemB : Item := ⟨"S2B_later", "https-b04-b", "https-b08-b", some 10⟩

/-- A concrete two-scene catalog used to witness the search theorems. -/
def witCatalog : Catalog := ⟨fun _ _ => [witItemA, witItemB]⟩

/-- Witness for C5 at a concrete catalog: the returned scene has cloud
cover 10, below the primary threshold 20 that was in effect. -/
theorem search_best_cloud_below_threshold_witness :
    ∃ cc, witItemB.cloudCover = some cc ∧
      ((pick witCatalog (0, 0, 1, 1) ("2024-01-01" ++ "/" ++ "2024-03-01") 20 = some witItemB ∧ cc < 20)
       ∨ (pick witCatalog (0, 0, 1, 1) ("2024-01-01" ++ "/" ++ "2024-03-01") 20 = none ∧ cc < 60)) :=
  search_best_cloud_below_threshold witCatalog 0 0 1 1 "2024-01-01" "2024-03-01" 20
    (by norm_num) (by norm_num) witItemB (by decide)

/-- Witness for C6 at a concrete catalog: the primary pick exists and is
returned unchanged. -/
theorem relaxed_tier_only_on_empty_primary_witness :
    searchBestItem witCatalog (0, 0, 1, 1) "2024-01-01" "2024-03-01" 20 = some witItemB :=
  (relaxed_tier_only_on_empty_primary witCatalog (0, 0, 1, 1) "2024-01-01" "2024-03-01" 20).1
    witItemB (by decide)

/-- The window computation of `_read_bands_ndvi` (lines 104–118): only
the two corners `(west, south)` and `(east, north)` of the geographic
bbox are reprojected, and the window is taken from their bounds. -/
def ndviWindow (tf : ℚ × ℚ → ℚ × ℚ) (srcT : Affine) (west south east north : ℚ) :
    Window :=
  let pmin := tf (west, south)
  let pmax := tf (east, north)
  fromBounds pmin.1 pmin.2 pmax.1 pmax.2 srcT

/-- Modelled from the spec wording of C4, for comparison with the code:
reproject all four bounding-box corners into the asset CRS and take the
window covering all of them. -/
def specFourCornerWindow (tf : ℚ × ℚ → ℚ × ℚ) (srcT : Affine)
    (west south east north : ℚ) : Window :=
  let c1 := tf (west, south)
  let c2 := tf (east, north)
  let c3 := tf (west, north)
  let c4 := tf (east, south)
  fromBounds (min4 c1.1 c2.1 c3.1 c4.1) (min4 c1.2 c2.2 c3.2 c4.2)
    (max4 c1.1 c2.1 c3.1 c4.1) (max4 c1.2 c2.2 c3.2 c4.2) srcT

/-- A shearing coordinate transformation (such a shear arises between a
geographic and a projected CRS away from the central meridian). -/
def shearTf : ℚ × ℚ → ℚ × ℚ := fun p => (p.1 - p.2, p.2)

/-- The identity affine transform (pixel = CRS coordinate). -/
def unitAffine : Affine := ⟨1, 0, 0, 0, 1, 0⟩

/-- A remotely-opened raster dataset (`rasterio.open(href)`): its CRS as
WKT, its affine transform, and its windowed masked read
(`src.read(1, window=w, masked=True)`; rounding the fractional window to
whole pixels happens inside this collaborator). -/
structure RasterDataset where
  crsWkt : String
  transform : Affine
  read : Window → MArr

/-- The remote raster access layer: resolves an asset href to an open
dataset. -/
structure RasterBackend where
  openDs : String → RasterDataset

/-- Python truthiness of the optional `out_res` float: `None` and `0.0`
are falsy, any other float is truthy. -/
def outResTruthy : Option ℚ → Bool
  | none => false
  | some r => decide (r ≠ 0)

/-- Model of `_read_bands_ndvi` (lines 82–136 of `src/main.py`): open B04 for CRS
and transform, reproject the (west,south) and (east,north) corners with
a transformer for that CRS pair, run the dead resampling branch (lines
110–115: `scale_x`/`scale_y` are computed and discarded — a float
division that raises ZeroDivisionError when the pixel size `a` or `e`
is zero and `out_res` is truthy), window both bands with the same
window, compute NDVI, and rebuild the window transform. -/
def readBandsNdvi (rb : RasterBackend) (tf : String → ℚ × ℚ → ℚ × ℚ) (item : Item)
    (bbox : ℚ × ℚ × ℚ × ℚ) (outRes : Option ℚ) : Except String (Arr × Affine × String) :=
  let src4 := rb.openDs item.hrefB04
  let srcCrs := src4.crsWkt
  let srcTransform := src4.transform
  if outResTruthy outRes && (decide (srcTransform.a = 0) || decide (srcTransform.e = 0)) then
    .error "ZeroDivisionError: float division by zero"
  else
    let window := ndviWindow (tf srcCrs) srcTransform bbox.1 bbox.2.1 bbox.2.2.1 bbox.2.2.2
    let b4 := src4.read window
    let b8 := (rb.openDs item.hrefB08).read window
    (computeIndex b4 b8).map (fun ndvi => (ndvi, outputTransform srcTransform window, srcCrs))

theorem min4_pair (a b : ℚ) : min4 a b a b = min a b := min_self _

theorem max4_pair (a b : ℚ) : max4 a b a b = max a b := max_self _

theorem min4_pair_rev (a b : ℚ) : min4 a b b a = min a b := by
  unfold min4
  rw [min_comm b a]
  exact min_self _

theorem max4_pair_rev (a b : ℚ) : max4 a b b a = max a b := by
  unfold max4
  rw [max_comm b a]
  exact max_self _

theorem min4_perm_swap (p q r s : ℚ) : min4 p q r s = min4 q p s r := by
  unfold min4
  rw [min_comm q p, min_comm s r]

theorem max4_perm_swap (p q r s : ℚ) : max4 p q r s = max4 q p s r := by
  unfold max4
  rw [max_comm q p, max_comm s r]

theorem min4_perm_rev (p q r s : ℚ) : min4 p q r s = min4 s r q p := by
  unfold min4
  rw [min_comm s r, min_comm q p]
  exact min_comm _ _

theorem max4_perm_rev (p q r s : ℚ) : max4 p q r s = max4 s r q p := by
  unfold max4
  rw [max_comm s r, max_comm q p]
  exact max_comm _ _

theorem fromBounds_swap_lr (l b r t : ℚ) (T : Affine) :
    fromBounds l b r t T = fromBounds r b l t T := by
  simp only [fromBounds]
  rw [Window.mk.injEq]
  refine ⟨min4_perm_swap _ _ _ _, min4_perm_swap _ _ _ _, ?_, ?_⟩
  · rw [max4_perm_swap, min4_perm_swap]
  · rw [max4_perm_swap, min4_perm_swap]

theorem fromBounds_swap_bt (l b r t : ℚ) (T : Affine) :
    fromBounds l b r t T = fromBounds l t r b T := by
  simp only [fromBounds]
  rw [Window.mk.injEq]
  refine ⟨min4_perm_rev _ _ _ _, min4_perm_rev _ _ _ _, ?_, ?_⟩
  · rw [max4_perm_rev, min4_perm_rev]
  · rw [max4_perm_rev, min4_perm_rev]

/-- C4 counterexample: under a shearing CRS transformation the window
computed from the two reprojected corners (west,south) and (east,north)
is not the minimal window covering the four reprojected bbox corners:
the code window has width 0 while the covering window has width 2. -/
theorem two_corner_window_not_minimal :
    (ndviWindow shearTf unitAffine 0 0 1 1).width = 0 ∧
    (specFourCornerWindow shearTf unitAffine 0 0 1 1).width = 2 ∧
    ndviWindow shearTf unitAffine 0 0 1 1 ≠
      specFourCornerWindow shearTf unitAffine 0 0 1 1 := by
  have h1 : (ndviWindow shearTf unitAffine 0 0 1 1).width = 0 := by
    norm_num [ndviWindow, shearTf, unitAffine, fromBounds, Affine.invApply,
      Affine.det, min4, max4]
  have h2 : (specFourCornerWindow shearTf unitAffine 0 0 1 1).width = 2 := by
    norm_num [specFourCornerWindow, shearTf, unitAffine, fromBounds, Affine.invApply,
      Affine.det, min4, max4]
  refine ⟨h1, h2, fun he => ?_⟩
  rw [he, h2] at h1
  norm_num at h1

/-- C4 amended: `_read_bands_ndvi` reprojects only the (west,south) and
(east,north) corners and windows from their bounds; (1) when the CRS
transformation acts independently on each axis the resulting window
equals the minimal window covering all four reprojected corners (for a
general, shearing transformation it does not — see the counterexample);
and (2) both band assets are read with that same single window, the read
differing between the bands only in the dataset being read. -/
theorem window_two_corners_amended (f g : ℚ → ℚ) (srcT : Affine)
    (west south east north : ℚ) :
    (ndviWindow (fun p => (f p.1, g p.2)) srcT west south east north =
      specFourCornerWindow (fun p => (f p.1, g p.2)) srcT west south east north)
    ∧ (∀ (rb : RasterBackend) (tf : String → ℚ × ℚ → ℚ × ℚ) (item : Item)
        (bbox : ℚ × ℚ × ℚ × ℚ),
        readBandsNdvi rb tf item bbox none =
          (computeIndex
            ((rb.openDs item.hrefB04).read
              (ndviWindow (tf (rb.openDs item.hrefB04).crsWkt)
                (rb.openDs item.hrefB04).transform bbox.1 bbox.2.1 bbox.2.2.1 bbox.2.2.2))
            ((rb.openDs item.hrefB08).read
              (ndviWindow (tf (rb.openDs item.hrefB04).crsWkt)
                (rb.openDs item.hrefB04).transform bbox.1 bbox.2.1 bbox.2.2.1 bbox.2.2.2))).map
            (fun a =>
              (a, outputTransform (rb.openDs item.hrefB04).transform
                    (ndviWindow (tf (rb.openDs item.hrefB04).crsWkt)
                      (rb.openDs item.hrefB04).transform bbox.1 bbox.2.1 bbox.2.2.1 bbox.2.2.2),
                (rb.openDs item.hrefB04).crsWkt))) := by
  constructor
  · simp only [ndviWindow, specFourCornerWindow, min4_pair, min4_pair_rev,
      max4_pair, max4_pair_rev]
    rcases le_total (f west) (f east) with hf | hf <;>
      rcases le_total (g south) (g north) with hg | hg
    · rw [min_eq_left hf, min_eq_left hg, max_eq_right hf, max_eq_right hg]
    · rw [min_eq_left hf, max_eq_right hf, min_eq_right hg, max_eq_left hg]
      exact fromBounds_swap_bt _ _ _ _ _
    · rw [min_eq_right hf, max_eq_left hf, min_eq_left hg, max_eq_right hg]
      exact fromBounds_swap_lr _ _ _ _ _
    · rw [min_eq_right hf, max_eq_left hf, min_eq_right hg, max_eq_left hg]
      exact (fromBounds_swap_lr _ _ _ _ _).trans (fromBounds_swap_bt _ _ _ _ _)
  · intro rb tf item bbox
    rfl

/-- C9 amended: whenever the source transform of the opened B04 asset
has nonzero pixel dimensions `a` and `e`, the result of
`_read_bands_ndvi` is identical for every value of `out_res` to its
result with `out_res=None` — the resampling scale factors are computed
and discarded and the window is read at native resolution.  The
unqualified claim is false: on a degenerate transform with `a = 0` or
`e = 0` (e.g. a rotated grid), a truthy `out_res` makes the discarded
scale-factor computation itself raise ZeroDivisionError while
`out_res=None` succeeds — see the counterexample. -/
theorem out_res_dead_branch (rb : RasterBackend) (tf : String → ℚ × ℚ → ℚ × ℚ)
    (item : Item) (bbox : ℚ × ℚ × ℚ × ℚ) (outRes : Option ℚ)
    (ha : (rb.openDs item.hrefB04).transform.a ≠ 0)
    (he : (rb.openDs item.hrefB04).transform.e ≠ 0) :
    readBandsNdvi rb tf item bbox outRes = readBandsNdvi rb tf item bbox none := by
  simp [readBandsNdvi, ha, he, outResTruthy]

/-- A concrete Sentinel-2-like dataset: UTM CRS, 10 m pixels, constant
1x1 unmasked reads. -/
def witDataset : RasterDataset :=
  ⟨"EPSG:32637", ⟨10, 0, 500000, 0, -10, 4100000⟩,
    fun _ => ⟨1, 1, fun _ _ => some 100, fun _ _ => false⟩⟩

/-- A raster backend resolving every href to the concrete dataset. -/
def witBackend : RasterBackend := ⟨fun _ => witDataset⟩

/-- An identity coordinate transformer for the witness. -/
def witTf : String → ℚ × ℚ → ℚ × ℚ := fun _ p => p

/-- Witness for C9 at a concrete backend: requesting `out_res = 30`
yields exactly the native-resolution result. -/
theorem out_res_dead_branch_witness :
    readBandsNdvi witBackend witTf witItemB (0, 0, 1, 1) (some 30) =
      readBandsNdvi witBackend witTf witItemB (0, 0, 1, 1) none :=
  out_res_dead_branch witBackend witTf witItemB (0, 0, 1, 1) (some 30)
    (by decide) (by decide)

/-- A dataset on a rotated grid: the affine transform has pixel
dimensions `a = 0` and `e = 0` with the rotation terms `b` and `d`
nonzero, so it is invertible (determinant 100) and geolocates every
sample unambiguously, yet `out_res / src_transform.a` divides by
zero. -/
def rotDataset : RasterDataset :=
  ⟨"EPSG:32637", ⟨0, 10, 500000, -10, 0, 4100000⟩,
    fun _ => ⟨1, 1, fun _ _ => some 100, fun _ _ => false⟩⟩

/-- A raster backend resolving every href to the rotated dataset. -/
def rotBackend : RasterBackend := ⟨fun _ => rotDataset⟩

/-- Whether a band-reading computation succeeded. -/
def readOk (r : Except String (Arr × Affine × String)) : Bool :=
  match r with
  | .ok _ => true
  | .error _ => false

/-- C9 counterexample: on the rotated-grid scene the resampling branch
is not observationally dead — with `out_res = 30` line 112's
`scale_x = out_res / src_transform.a` raises ZeroDivisionError, while
the same call with `out_res=None` succeeds, so the two results differ. -/
theorem out_res_not_dead_on_degenerate_transform :
    readBandsNdvi rotBackend witTf witItemB (0, 0, 1, 1) (some 30) =
      .error "ZeroDivisionError: float division by zero" ∧
    readOk (readBandsNdvi rotBackend witTf witItemB (0, 0, 1, 1) none) = true ∧
    readBandsNdvi rotBackend witTf witItemB (0, 0, 1, 1) (some 30) ≠
      readBandsNdvi rotBackend witTf witItemB (0, 0, 1, 1) none := by
  have h1 : readBandsNdvi rotBackend witTf witItemB (0, 0, 1, 1) (some 30) =
      .error "ZeroDivisionError: float division by zero" := rfl
  have h2 : readOk (readBandsNdvi rotBackend witTf witItemB (0, 0, 1, 1) none) = true := rfl
  refine ⟨h1, h2, fun he => ?_⟩
  rw [h1] at he
  rw [← he] at h2
  simp [readOk] at h2

/-- A rendered PNG preview: `_png_from_ndvi` (lines 163–178) clips the
index to the display range [-0.2, 0.8] and rescales to [0, 1]; the
matplotlib rasterization of the shaded array is an external
collaborator, so the preview is modelled by the shaded array handed to
it. -/
structure Png where
  shaded : Arr

/-- Model of `np.clip(ndvi, -0.2, 0.8)` on one sample (NaN propagates). -/
def clipSample (x : Sample) : Sample :=
  x.map (fun q => max (-(1 / 5) : ℚ) (min (4 / 5) q))

/-- Model of `_png_from_ndvi` up to the external rasterizer: clip, then rescale
by `(arr - (-0.2)) / (0.8 - (-0.2))`. -/
def pngFromNdvi (ndvi : Arr) : Png :=
  ⟨{ rows := ndvi.rows, cols := ndvi.cols,
     data := fun i j => (clipSample (ndvi.data i j)).map (fun q => (q + 1 / 5) / 1) }⟩

/-- A JSON bbox object restricted to the four canonical keys (a key is
present iff the field is `some`; bodies with extraneous bbox keys are
outside this model). -/
structure BBoxJson where
  west : Option ℚ
  south : Option ℚ
  east : Option ℚ
  north : Option ℚ

/-- Python truthiness of the optional bbox dict (`not bbox`): absent or
empty is falsy. -/
def bboxTruthy : Option BBoxJson → Bool
  | none => false
  | some b => b.west.isSome || b.south.isSome || b.east.isSome || b.north.isSome

/-- Python truthiness of an optional string (absent or empty is falsy). -/
def strTruthy : Option String → Bool
  | none => false
  | some st => decide (st ≠ "")

/-- A JSON request body for the NDVI endpoints: fields absent from the
JSON are `none`; bbox values are numeric (as consumed by `float`). -/
structure RequestBody where
  bbox : Option BBoxJson
  startDate : Option String
  endDate : Option String

/-- The observable outcome of a FastAPI endpoint call: a successful
response, a raised `HTTPException` (a JSON error with its status code),
or an uncaught Python exception, which FastAPI renders as a 500
Internal Server Error response. -/
inductive Outcome (α : Type) where
  | ok (val : α)
  | httpError (status : Nat) (detail : String)
  | exn (msg : String)

/-- The HTTP status code of an endpoint outcome. -/
def Outcome.status {α : Type} : Outcome α → Nat
  | .ok _ => 200
  | .httpError st _ => st
  | .exn _ => 500

/-- Map the success payload of an outcome. -/
def Outcome.map {α β : Type} (f : α → β) : Outcome α → Outcome β
  | .ok a => .ok (f a)
  | .httpError st d => .httpError st d
  | .exn m => .exn m

/-- A GeoTIFF attachment response of `/ndvi/download`. -/
structure TiffDownload where
  gtiff : GeoTiff
  mediaType : String
  contentDisposition : String

/-- Serialize the download response (lines 249–253): GeoTIFF bytes with
media type `image/tiff` and the attachment filename
`NDVI_<start>_<end>.tif`. -/
def mkTiffDownload (g : GeoTiff) (sd ed : String) : TiffDownload :=
  { gtiff := g, mediaType := "image/tiff",
    contentDisposition :=
      "attachment; filename=\"NDVI_" ++ sd ++ "_" ++ ed ++ ".tif\"" }

/-- Endpoint `POST /ndvi` (lines 189–223 of `src/main.py`): truthiness check on
bbox/start/end (400 on failure), then direct key lookups `bbox["west"]`
… `bbox["north"]` (an absent key raises KeyError, an uncaught
exception), catalog search (404 when empty), `_read_bands_ndvi`, and
the PNG preview response. -/
def ndviEndpoint (cat : Catalog) (rb : RasterBackend) (tf : String → ℚ × ℚ → ℚ × ℚ)
    (body : RequestBody) : Outcome Png :=
  if !(bboxTruthy body.bbox && (strTruthy body.startDate && strTruthy body.endDate)) then
    .httpError 400 "Missing parameters"
  else
    match body.bbox, body.startDate, body.endDate with
    | some bb, some sd, some ed =>
        match bb.west with
        | none => .exn "KeyError: west"
        | some west =>
            match bb.south with
            | none => .exn "KeyError: south"
            | some south =>
                match bb.east with
                | none => .exn "KeyError: east"
                | some east =>
                    match bb.north with
                    | none => .exn "KeyError: north"
                    | some north =>
                        match searchBestItem cat (west, south, east, north) sd ed 20 with
                        | none =>
                            .httpError 404 "No imagery found for the requested time/area."
                        | some item =>
                            match readBandsNdvi rb tf item (west, south, east, north) none with
                            | .error msg => .exn msg
                            | .ok res => .ok (pngFromNdvi res.1)
    | _, _, _ => .exn "unreachable: a falsy field passed the truthiness check"

/-- Endpoint `POST /ndvi/download` (lines 226–253 of `src/main.py`): identical
parse/search/read pipeline, serialized as a GeoTIFF attachment. -/
def ndviDownloadEndpoint (cat : Catalog) (rb : RasterBackend)
    (tf : String → ℚ × ℚ → ℚ × ℚ) (body : RequestBody) : Outcome TiffDownload :=
  if !(bboxTruthy body.bbox && (strTruthy body.startDate && strTruthy body.endDate)) then
    .httpError 400 "Missing parameters"
  else
    match body.bbox, body.startDate, body.endDate with
    | some bb, some sd, some ed =>
        match bb.west with
        | none => .exn "KeyError: west"
        | some west =>
            match bb.south with
            | none => .exn "KeyError: south"
            | some south =>
                match bb.east with
                | none => .exn "KeyError: east"
                | some east =>
                    match bb.north with
                    | none => .exn "KeyError: north"
                    | some north =>
                        match searchBestItem cat (west, south, east, north) sd ed 20 with
                        | none =>
                            .httpError 404 "No imagery found for the requested time/area."
                        | some item =>
                            match readBandsNdvi rb tf item (west, south, east, north) none with
                            | .error msg => .exn msg
                            | .ok res =>
                                .ok (mkTiffDownload (saveGeotiff res.1 res.2.1 res.2.2) sd ed)
    | _, _, _ => .exn "unreachable: a falsy field passed the truthiness check"

/-- The shared pre-serialization pipeline both endpoints implement
(stated for the refinement claim): parse and validate the body, select
the scene, read the bands and compute NDVI; the result carries the
selected scene, the NDVI array, the transform, the CRS and the request
dates. -/
def ndviPipeline (cat : Catalog) (rb : RasterBackend) (tf : String → ℚ × ℚ → ℚ × ℚ)
    (body : RequestBody) : Outcome (Item × Arr × Affine × String × String × String) :=
  if !(bboxTruthy body.bbox && (strTruthy body.startDate && strTruthy body.endDate)) then
    .httpError 400 "Missing parameters"
  else
    match body.bbox, body.startDate, body.endDate with
    | some bb, some sd, some ed =>
        match bb.west with
        | none => .exn "KeyError: west"
        | some west =>
            match bb.south with
            | none => .exn "KeyError: south"
            | some south =>
                match bb.east with
                | none => .exn "KeyError: east"
                | some east =>
                    match bb.north with
                    | none => .exn "KeyError: north"
                    | some north =>
                        match searchBestItem cat (west, south, east, north) sd ed 20 with
                        | none =>
                            .httpError 404 "No imagery found for the requested time/area."
                        | some item =>
                            match readBandsNdvi rb tf item (west, south, east, north) none with
                            | .error msg => .exn msg
                            | .ok res => .ok (item, res.1, res.2.1, res.2.2, sd, ed)
    | _, _, _ => .exn "unreachable: a falsy field passed the truthiness check"

/-- C10: on every request body and every catalog / raster backend, both
endpoints factor through the same pipeline — they select the same
scene and compute the identical NDVI array, transform and CRS — and
differ only in the final serialization (PNG preview versus GeoTIFF
attachment). -/
theorem endpoints_share_pipeline (cat : Catalog) (rb : RasterBackend)
    (tf : String → ℚ × ℚ → ℚ × ℚ) (body : RequestBody) :
    ndviEndpoint cat rb tf body =
      Outcome.map (fun r => pngFromNdvi r.2.1) (ndviPipeline cat rb tf body)
    ∧ ndviDownloadEndpoint cat rb tf body =
      Outcome.map
        (fun r => mkTiffDownload (saveGeotiff r.2.1 r.2.2.1 r.2.2.2.1) r.2.2.2.2.1 r.2.2.2.2.2)
        (ndviPipeline cat rb tf body) := by
  obtain ⟨obb, osd, oed⟩ := body
  constructor <;>
  · simp only [ndviEndpoint, ndviDownloadEndpoint, ndviPipeline]
    cases hC : (bboxTruthy obb && (strTruthy osd && strTruthy oed)) with
    | false => simp [hC, Outcome.map]
    | true =>
        have hCC := hC
        rw [Bool.and_eq_true, Bool.and_eq_true] at hCC
        obtain ⟨hb, hsd, hed⟩ := hCC
        cases obb with
        | none => simp [bboxTruthy] at hb
        | some bb =>
        cases osd with
        | none => simp [strTruthy] at hsd
        | some sd =>
        cases oed with
        | none => simp [strTruthy] at hed
        | some ed =>
        cases hw : bb.west with
        | none => simp [hC, hw, Outcome.map]
        | some west =>
        cases hso : bb.south with
        | none => simp [hC, hw, hso, Outcome.map]
        | some south =>
        cases hea : bb.east with
        | none => simp [hC, hw, hso, hea, Outcome.map]
        | some east =>
        cases hno : bb.north with
        | none => simp [hC, hw, hso, hea, hno, Outcome.map]
        | some north =>
        cases hsearch : searchBestItem cat (west, south, east, north) sd ed 20 with
        | none => simp [hC, hw, hso, hea, hno, hsearch, Outcome.map]
        | some item =>
        cases hread : readBandsNdvi rb tf item (west, south, east, north) none with
        | error msg => simp [hC, hw, hso, hea, hno, hsearch, hread, Outcome.map]
        | ok res => simp [hC, hw, hso, hea, hno, hsearch, hread, Outcome.map]

/-- A request body whose bbox object is present but lacks the `north`
key. -/
def missingNorthBody : RequestBody :=
  { bbox := some ⟨some 0, some 0, some 1, none⟩,
    startDate := some "2024-01-01", endDate := some "2024-03-01" }

/-- C3 counterexample: the truthiness check `not bbox` passes for a
non-empty bbox dict, so with `north` missing both endpoints reach
`float(bbox["north"])` and raise an uncaught `KeyError`, which the
server surfaces as HTTP 500 (Internal Server Error) — not the claimed
400. -/
theorem missing_north_returns_500 :
    ndviEndpoint witCatalog witBackend witTf missingNorthBody = .exn "KeyError: north" ∧
    ndviDownloadEndpoint witCatalog witBackend witTf missingNorthBody =
      .exn "KeyError: north" ∧
    (ndviEndpoint witCatalog witBackend witTf missingNorthBody).status = 500 ∧
    (ndviDownloadEndpoint witCatalog witBackend witTf missingNorthBody).status = 500 ∧
    (500 : Nat) ≠ 400 := by
  refine ⟨rfl, rfl, rfl, rfl, by decide⟩

/-- C3 amended: a present bbox missing the `north` key (with the other
keys and both dates present and truthy) does fail before any remote
call — the outcome is the same constant for every catalog, raster
backend and transformer — but the failure is an uncaught `KeyError`
surfaced as HTTP 500, not the 400 validation response; the 400 branch
fires only when bbox, startDate or endDate is absent or falsy. -/
theorem missing_north_key_uncaught (cat : Catalog) (rb : RasterBackend)
    (tf : String → ℚ × ℚ → ℚ × ℚ) (w s e : ℚ) (sd ed : String)
    (hsd : sd ≠ "") (hed : ed ≠ "") :
    ndviEndpoint cat rb tf ⟨some ⟨some w, some s, some e, none⟩, some sd, some ed⟩ =
      .exn "KeyError: north" ∧
    ndviDownloadEndpoint cat rb tf ⟨some ⟨some w, some s, some e, none⟩, some sd, some ed⟩ =
      .exn "KeyError: north" := by
  constructor <;>
    simp [ndviEndpoint, ndviDownloadEndpoint, bboxTruthy, strTruthy, hsd, hed]

/-- Witness for the amended C3 theorem at concrete values and backends. -/
theorem missing_north_key_uncaught_witness :
    ndviEndpoint witCatalog witBackend witTf
      ⟨some ⟨some 2, some 3, some 4, none⟩, some "2024-05-01", some "2024-06-01"⟩ =
      .exn "KeyError: north" :=
  (missing_north_key_uncaught witCatalog witBackend witTf 2 3 4 "2024-05-01" "2024-06-01"
    (by decide) (by decide)).1

end NdviService
